import Mathlib

/-!
Shallow embedding of the price-recommendation core of `webapp/price_scraper.py`
(reselling-app). Python floats are modelled as exact rationals; Python's
`round(x, n)` is modelled as exact round-half-to-even on rationals at `n`
decimal digits. Network scraping is modelled by passing the list of scraped
observations as an explicit argument.
-/

/-- Python's `round` to the nearest integer, ties going to the even integer. -/
def roundHalfEven (x : ℚ) : ℤ :=
  if x - ⌊x⌋ < 1/2 then ⌊x⌋
  else if 1/2 < x - ⌊x⌋ then ⌊x⌋ + 1
  else if 2 ∣ ⌊x⌋ then ⌊x⌋ else ⌊x⌋ + 1

/-- Python's `round(x, n)` for `n` decimal digits, on exact rationals. -/
def pyRound (x : ℚ) (n : ℕ) : ℚ :=
  (roundHalfEven (x * 10 ^ n) : ℚ) / 10 ^ n

/-- Python's `min` over a list (source lists are nonempty at every call site). -/
def pyMin : List ℚ → ℚ
  | [] => 0
  | x :: xs => xs.foldl min x

/-- Python's `max` over a list (source lists are nonempty at every call site). -/
def pyMax : List ℚ → ℚ
  | [] => 0
  | x :: xs => xs.foldl max x

/-- Python `statistics.mean`: exact sum divided by length. -/
def pyMean (l : List ℚ) : ℚ := l.sum / l.length

/-- Python `statistics.median`: sort; odd length takes the middle element,
even length averages the two middle elements. -/
def pyMedian (l : List ℚ) : ℚ :=
  let s := List.insertionSort (fun a b => a ≤ b) l
  if l.length % 2 = 1 then s.getD (l.length / 2) 0
  else (s.getD (l.length / 2 - 1) 0 + s.getD (l.length / 2) 0) / 2

/-- Python `f"{x:.2f}"` on our exact rationals (used only in advisory text). -/
def formatPrice (x : ℚ) : String :=
  let c := roundHalfEven (x * 100)
  let sign := if c < 0 then "-" else ""
  let a := c.natAbs
  sign ++ toString (a / 100) ++ "." ++
    (if a % 100 < 10 then "0" else "") ++ toString (a % 100)

/-- `ScrapedListing` dataclass from `webapp/price_scraper.py`. -/
structure ScrapedListing where
  title : String
  price : ℚ
  platform : String
  url : String
deriving DecidableEq

/-- The dict returned by `get_real_market_prices` on success. -/
structure MarketSummary where
  count : ℕ
  min : ℚ
  max : ℚ
  avg : ℚ
  median : ℚ
  quick_sale : ℚ
  fair_price : ℚ
  max_value : ℚ
  source : String
deriving DecidableEq

/-- The `prices` local of `get_real_market_prices`:
`[l.price for l in all_listings]`. -/
def market_prices (all_listings : List ScrapedListing) : List ℚ :=
  all_listings.map ScrapedListing.price

/-- The `filtered` local of `get_real_market_prices` as first assigned: the
single-pass outlier filter `[p for p in prices if p < avg * 3]` against the
mean of the unfiltered prices. -/
def market_filtered (all_listings : List ScrapedListing) : List ℚ :=
  (market_prices all_listings).filter
    (fun p => decide (p < pyMean (market_prices all_listings) * 3))

/-- The `filtered` local after the `if not filtered: filtered = prices`
fallback. -/
def market_kept (all_listings : List ScrapedListing) : List ℚ :=
  if (market_filtered all_listings).isEmpty then market_prices all_listings
  else market_filtered all_listings

/-- `get_real_market_prices` from `webapp/price_scraper.py`, with the scraping
step modelled by the explicit `all_listings` argument (the concatenation of the
four platform scrapes). Returns `none` for Python's `None`. -/
def get_real_market_prices (all_listings : List ScrapedListing) :
    Option MarketSummary :=
  if all_listings.length < 3 then none
  else
    let filtered := market_kept all_listings
    let med := pyMedian filtered
    some {
      count := filtered.length
      min := pyMin filtered
      max := pyMax filtered
      avg := pyRound (pyMean filtered) 2
      median := pyRound med 2
      quick_sale := pyRound (med * (85/100)) 2
      fair_price := pyRound med 2
      max_value := pyRound (med * (12/10)) 2
      source := "live_scrape" }

/-- The `{low, high, avg}` dict returned by `estimate_from_retail`. -/
structure RetailEstimate where
  low : ℚ
  high : ℚ
  avg : ℚ
deriving DecidableEq

/-- The `multipliers` table inside `estimate_from_retail`, with the
`.get(condition, (0.30, 0.50))` fallback for unknown grades. -/
def condition_multipliers (condition : String) : ℚ × ℚ :=
  if condition = "new" then (60/100, 85/100)
  else if condition = "excellent" then (45/100, 65/100)
  else if condition = "good" then (30/100, 50/100)
  else if condition = "fair" then (15/100, 30/100)
  else (30/100, 50/100)

/-- `estimate_from_retail` from `webapp/price_scraper.py`. -/
def estimate_from_retail (retail_price : ℚ) (condition : String) :
    RetailEstimate :=
  let m := condition_multipliers condition
  { low := pyRound (retail_price * m.1) 2
    high := pyRound (retail_price * m.2) 2
    avg := pyRound (retail_price * (m.1 + m.2) / 2) 2 }

/-- One platform's record in the `get_platform_fees` dict; absent keys are
`none`. -/
structure FeeInfo where
  fee_under_15 : Option ℚ
  fee_percent : Option ℚ
  payment_fee : Option ℚ
  payment_flat : Option ℚ
  threshold : Option ℚ
deriving DecidableEq

/-- `get_platform_fees` from `webapp/price_scraper.py`, as a lookup:
`none` models a key absent from the dict. -/
def get_platform_fees (platform : String) : Option FeeInfo :=
  if platform = "poshmark" then
    some ⟨some (295/100), some (20/100), none, none, some 15⟩
  else if platform = "depop" then
    some ⟨none, some (10/100), some (29/1000), some (30/100), none⟩
  else if platform = "mercari" then
    some ⟨none, some (10/100), none, none, none⟩
  else if platform = "ebay" then
    some ⟨none, some (1315/10000), none, none, none⟩
  else if platform = "xiaohongshu" then
    some ⟨none, some (5/100), none, none, none⟩
  else none

/-- The `{"fee_percent": 0.10}` default of `.get(platform, ...)` in
`calculate_net_profit`. -/
def default_fees : FeeInfo := ⟨none, some (10/100), none, none, none⟩

/-- The `total_fee` local of `calculate_net_profit`: the platform-dependent
fee computation on lines 298-310 of `webapp/price_scraper.py`. -/
def total_fee (sale_price : ℚ) (platform : String) : ℚ :=
  let fees := (get_platform_fees platform).getD default_fees
  if platform = "poshmark" then
    if sale_price < fees.threshold.getD 0 then fees.fee_under_15.getD 0
    else sale_price * fees.fee_percent.getD 0
  else if platform = "depop" then
    sale_price * fees.fee_percent.getD 0 +
      (sale_price * fees.payment_fee.getD 0 + fees.payment_flat.getD 0)
  else sale_price * fees.fee_percent.getD (10/100)

/-- The dict returned by `calculate_net_profit`. -/
structure ProfitBreakdown where
  sale_price : ℚ
  platform_fee : ℚ
  net_payout : ℚ
  profit : ℚ
  profit_margin : ℚ
deriving DecidableEq

/-- `calculate_net_profit` from `webapp/price_scraper.py`. Python truthiness
of the floats `item_cost` and `sale_price` is the test `≠ 0`. -/
def calculate_net_profit (sale_price : ℚ) (platform : String)
    (item_cost : ℚ) : ProfitBreakdown :=
  let fee := total_fee sale_price platform
  let net := sale_price - fee
  let profit := if item_cost ≠ 0 then net - item_cost else net
  { sale_price := sale_price
    platform_fee := pyRound fee 2
    net_payout := pyRound net 2
    profit := pyRound profit 2
    profit_margin :=
      pyRound (if sale_price ≠ 0 then profit / sale_price * 100 else 0) 1 }

/-- Behaviour of the market data source inside `generate_price_recommendation`:
the scraping either raises (caught by the `try/except`) or yields a list of
listings that `get_real_market_prices` then aggregates. -/
inductive MarketFetch where
  | fails : MarketFetch
  | returns : List ScrapedListing → MarketFetch

/-- The `real_prices` local of `generate_price_recommendation`: `none` unless
`use_live_data` holds and the fetch succeeds, in which case it is whatever
`get_real_market_prices` returns (an exception leaves it `None`). -/
def fetch_real_prices (fetch : MarketFetch) (use_live_data : Bool) :
    Option MarketSummary :=
  if use_live_data then
    match fetch with
    | .fails => none
    | .returns listings => get_real_market_prices listings
  else none

/-- The tiers and data-source tag chosen by the three-way branch on lines
346-374 of `webapp/price_scraper.py`, before the cost floor is applied.
Python truthiness of `retail_price` (`None` and `0.0` falsy) is
`retail_price.getD 0 ≠ 0`. -/
structure BranchResult where
  quick_sale : ℚ
  fair_price : ℚ
  max_value : ℚ
  data_source : String
deriving DecidableEq

/-- The `elif retail_price: ... else: ...` part of the branch selection
(lines 357-374 of `webapp/price_scraper.py`). -/
def choose_tiers_fallback (retail_price : Option ℚ) (condition : String) :
    BranchResult :=
  if retail_price.getD 0 ≠ 0 then
    let est := estimate_from_retail (retail_price.getD 0) condition
    ⟨est.low, est.avg, est.high, "estimated from retail"⟩
  else ⟨25, 50, 75, "default estimate"⟩

/-- The branch selection of `generate_price_recommendation`
(`if real_prices and real_prices.get("count", 0) >= 3: ...`). -/
def choose_tiers (real_prices : Option MarketSummary)
    (retail_price : Option ℚ) (condition : String) : BranchResult :=
  match real_prices with
  | some rp =>
    if 3 ≤ rp.count then
      ⟨rp.quick_sale, rp.fair_price, rp.max_value,
        "live (" ++ toString rp.count ++ " sold listings)"⟩
    else choose_tiers_fallback retail_price condition
  | none => choose_tiers_fallback retail_price condition

/-- The `"estimates"` entry of the returned recommendation dict. -/
structure Estimates where
  quick_sale : ℚ
  fair_price : ℚ
  max_value : ℚ
deriving DecidableEq

/-- One platform's entry in the `"platforms"` table. -/
structure PlatformTiers where
  quick_sale : ProfitBreakdown
  fair_price : ProfitBreakdown
  max_value : ProfitBreakdown
deriving DecidableEq

/-- The dict returned by `generate_price_recommendation`. -/
structure Recommendation where
  item : String
  brand : String
  condition : String
  data_source : String
  market_data : Option MarketSummary
  estimates : Estimates
  platforms : List (String × PlatformTiers)
  recommendation : String

/-- `generate_price_recommendation` from `webapp/price_scraper.py`, with the
market data source's behaviour passed in as `fetch`. Python truthiness of the
float `item_cost` is the test `≠ 0`. -/
def generate_price_recommendation (fetch : MarketFetch) (item_name : String)
    (brand : String) (condition : String) (retail_price : Option ℚ)
    (item_cost : ℚ) (use_live_data : Bool) : Recommendation :=
  let real_prices := fetch_real_prices fetch use_live_data
  let br := choose_tiers real_prices retail_price condition
  let min_price := item_cost * (11/10)
  let quick_sale := if item_cost ≠ 0 then max br.quick_sale min_price
    else br.quick_sale
  let fair_price := if item_cost ≠ 0 then max br.fair_price min_price
    else br.fair_price
  let max_value := br.max_value
  let platforms := ["poshmark", "depop", "mercari", "ebay"].map fun pl =>
    (pl, PlatformTiers.mk
      (calculate_net_profit quick_sale pl item_cost)
      (calculate_net_profit fair_price pl item_cost)
      (calculate_net_profit max_value pl item_cost))
  { item := item_name
    brand := brand
    condition := condition
    data_source := br.data_source
    market_data := real_prices
    estimates := ⟨quick_sale, fair_price, max_value⟩
    platforms := platforms
    recommendation := "List at $" ++ formatPrice fair_price ++
      " for fair value, or $" ++ formatPrice quick_sale ++ " for quick sale" }

example : pyRound (59/20 * 1) 2 = 59/20 := by norm_num [pyRound, roundHalfEven]

example : (calculate_net_profit 15 "poshmark" 0).platform_fee = 3 := by
  norm_num [calculate_net_profit, total_fee, get_platform_fees, pyRound,
    roundHalfEven]

example : pyMedian [1, 4, 2, 3] = 5/2 := by
  norm_num [pyMedian, List.insertionSort, List.orderedInsert]

theorem floor_le_roundHalfEven (x : ℚ) : ⌊x⌋ ≤ roundHalfEven x := by
  unfold roundHalfEven
  split_ifs <;> omega

theorem roundHalfEven_le_floor_add_one (x : ℚ) :
    roundHalfEven x ≤ ⌊x⌋ + 1 := by
  unfold roundHalfEven
  split_ifs <;> omega

theorem roundHalfEven_mono {x y : ℚ} (h : x ≤ y) :
    roundHalfEven x ≤ roundHalfEven y := by
  rcases lt_or_eq_of_le (Int.floor_le_floor h) with hf | hf
  · have h1 := roundHalfEven_le_floor_add_one x
    have h2 := floor_le_roundHalfEven y
    omega
  · unfold roundHalfEven
    rw [hf]
    split_ifs <;> first | omega | linarith

theorem pyRound_mono {x y : ℚ} (n : ℕ) (h : x ≤ y) :
    pyRound x n ≤ pyRound y n := by
  unfold pyRound
  have h10 : (0:ℚ) < 10 ^ n := by positivity
  apply (div_le_div_iff_of_pos_right h10).mpr
  exact_mod_cast roundHalfEven_mono (mul_le_mul_of_nonneg_right h h10.le)

theorem pyRound_zero (n : ℕ) : pyRound 0 n = 0 := by
  norm_num [pyRound, roundHalfEven]

theorem pyRound_nonpos {x : ℚ} (n : ℕ) (h : x ≤ 0) : pyRound x n ≤ 0 := by
  have := pyRound_mono n h
  rwa [pyRound_zero] at this

theorem foldl_min_le_init (xs : List ℚ) (a : ℚ) : xs.foldl min a ≤ a := by
  induction xs generalizing a with
  | nil => exact le_refl a
  | cons x xs ih => exact le_trans (ih (min a x)) (min_le_left a x)

theorem foldl_min_le_of_mem {xs : List ℚ} {b : ℚ} (hb : b ∈ xs) (a : ℚ) :
    xs.foldl min a ≤ b := by
  induction xs generalizing a with
  | nil => cases hb
  | cons x xs ih =>
    rcases List.mem_cons.mp hb with rfl | hb
    · exact le_trans (foldl_min_le_init xs (min a b)) (min_le_right a b)
    · exact ih hb (min a x)

theorem pyMin_le_of_mem {l : List ℚ} {b : ℚ} (hb : b ∈ l) : pyMin l ≤ b := by
  cases l with
  | nil => cases hb
  | cons x xs =>
    rcases List.mem_cons.mp hb with rfl | hb
    · exact foldl_min_le_init xs b
    · exact foldl_min_le_of_mem hb x

theorem foldl_min_mem (xs : List ℚ) (a : ℚ) :
    xs.foldl min a = a ∨ xs.foldl min a ∈ xs := by
  induction xs generalizing a with
  | nil => exact Or.inl rfl
  | cons x xs ih =>
    rcases ih (min a x) with h | h
    · rcases min_choice a x with h2 | h2
      · exact Or.inl (by rw [List.foldl_cons, h, h2])
      · exact Or.inr (by rw [List.foldl_cons, h, h2]; exact List.mem_cons_self x xs)
    · exact Or.inr (List.mem_cons_of_mem x h)

theorem pyMin_mem {l : List ℚ} (hne : l ≠ []) : pyMin l ∈ l := by
  cases l with
  | nil => exact absurd rfl hne
  | cons x xs =>
    rcases foldl_min_mem xs x with h | h
    · rw [pyMin, h]; exact List.mem_cons_self x xs
    · exact List.mem_cons_of_mem x h

theorem init_le_foldl_max (xs : List ℚ) (a : ℚ) : a ≤ xs.foldl max a := by
  induction xs generalizing a with
  | nil => exact le_refl a
  | cons x xs ih => exact le_trans (le_max_left a x) (ih (max a x))

theorem le_foldl_max_of_mem {xs : List ℚ} {b : ℚ} (hb : b ∈ xs) (a : ℚ) :
    b ≤ xs.foldl max a := by
  induction xs generalizing a with
  | nil => cases hb
  | cons x xs ih =>
    rcases List.mem_cons.mp hb with rfl | hb
    · exact le_trans (le_max_right a b) (init_le_foldl_max xs (max a b))
    · exact ih hb (max a x)

theorem le_pyMax_of_mem {l : List ℚ} {b : ℚ} (hb : b ∈ l) : b ≤ pyMax l := by
  cases l with
  | nil => cases hb
  | cons x xs =>
    rcases List.mem_cons.mp hb with rfl | hb
    · exact init_le_foldl_max xs b
    · exact le_foldl_max_of_mem hb x

theorem sorted_getD_mem {l : List ℚ} {i : ℕ} (h : i < l.length) :
    (List.insertionSort (fun a b => a ≤ b) l).getD i 0 ∈ l := by
  have hlen : (List.insertionSort (fun a b => a ≤ b) l).length = l.length :=
    List.length_insertionSort _ l
  have hidx : i < (List.insertionSort (fun a b => a ≤ b) l).length := by omega
  rw [List.getD_eq_getElem _ _ hidx]
  exact (List.mem_insertionSort _).mp (List.getElem_mem hidx)

theorem pyMin_le_pyMedian {l : List ℚ} (hne : l ≠ []) :
    pyMin l ≤ pyMedian l := by
  unfold pyMedian
  have hpos : 0 < l.length := List.length_pos.mpr hne
  by_cases hodd : l.length % 2 = 1
  · rw [if_pos hodd]
    exact pyMin_le_of_mem (sorted_getD_mem (by omega))
  · rw [if_neg hodd]
    have h1 : l.length / 2 - 1 < l.length := by omega
    have h2 : l.length / 2 < l.length := by omega
    have hm1 := pyMin_le_of_mem (sorted_getD_mem h1)
    have hm2 := pyMin_le_of_mem (sorted_getD_mem h2)
    linarith

theorem pyMedian_le_pyMax {l : List ℚ} (hne : l ≠ []) :
    pyMedian l ≤ pyMax l := by
  unfold pyMedian
  have hpos : 0 < l.length := List.length_pos.mpr hne
  by_cases hodd : l.length % 2 = 1
  · rw [if_pos hodd]
    exact le_pyMax_of_mem (sorted_getD_mem (by omega))
  · rw [if_neg hodd]
    have h1 : l.length / 2 - 1 < l.length := by omega
    have h2 : l.length / 2 < l.length := by omega
    have hm1 := le_pyMax_of_mem (sorted_getD_mem h1)
    have hm2 := le_pyMax_of_mem (sorted_getD_mem h2)
    linarith

theorem length_filter_split (l : List ℚ) (p : ℚ → Bool) :
    (l.filter p).length + (l.filter (fun a => !(p a))).length = l.length := by
  induction l with
  | nil => rfl
  | cons x xs ih => cases hp : p x <;> simp [List.filter_cons, hp] <;> omega

theorem sum_filter_split (l : List ℚ) (p : ℚ → Bool) :
    (l.filter p).sum + (l.filter (fun a => !(p a))).sum = l.sum := by
  induction l with
  | nil => simp
  | cons x xs ih => cases hp : p x <;> simp [List.filter_cons, hp] <;> linarith

theorem mul_length_le_sum {m : List ℚ} {c : ℚ} (h : ∀ x ∈ m, c ≤ x) :
    c * m.length ≤ m.sum := by
  induction m with
  | nil => simp
  | cons x xs ih =>
    have hx := h x (List.mem_cons_self x xs)
    have hxs := ih fun y hy => h y (List.mem_cons_of_mem x hy)
    simp only [List.sum_cons, List.length_cons]
    push_cast
    nlinarith [hx, hxs]

/-- Core arithmetic fact behind the outlier filter of
`get_real_market_prices`: over at least 3 strictly positive prices, the
single-pass filter `p < mean * 3` drops fewer than a third of the
observations and always keeps at least 3. -/
theorem outlier_filter_retains {l : List ℚ} (h3 : 3 ≤ l.length)
    (hpos : ∀ p ∈ l, 0 < p) :
    3 * (l.filter fun a => !(decide (a < pyMean l * 3))).length < l.length ∧
      3 ≤ (l.filter fun p => decide (p < pyMean l * 3)).length := by
  have hne : l ≠ [] := by
    intro h
    rw [h] at h3
    simp at h3
  have hS : 0 < l.sum := List.sum_pos l hpos hne
  have hn : (0:ℚ) < (l.length : ℚ) := by
    have := List.length_pos.mpr hne
    exact_mod_cast this
  set P : ℚ → Bool := fun p => decide (p < pyMean l * 3) with hP
  have hdrop_ge : ∀ x ∈ l.filter fun a => !(P a), pyMean l * 3 ≤ x := by
    intro x hx
    have hx2 := List.mem_filter.mp hx
    have : P x = false := by
      have := hx2.2
      simpa using this
    rw [hP] at this
    simp only [decide_eq_false_iff_not, not_lt] at this
    exact this
  have hdsum : pyMean l * 3 * ((l.filter fun a => !(P a)).length) ≤
      (l.filter fun a => !(P a)).sum := mul_length_le_sum hdrop_ge
  have hsplit := sum_filter_split l P
  have hlsplit := length_filter_split l P
  have hfne : l.filter P ≠ [] := by
    intro hf
    rw [hf] at hsplit hlsplit
    simp only [List.sum_nil, List.length_nil, zero_add] at hsplit hlsplit
    rw [hlsplit] at hdsum
    rw [hsplit] at hdsum
    have : pyMean l * 3 * (l.length : ℚ) = 3 * l.sum := by
      rw [pyMean]
      field_simp
      ring
    rw [this] at hdsum
    linarith
  have hfsum : 0 < (l.filter P).sum := by
    apply List.sum_pos
    · intro x hx
      exact hpos x (List.mem_filter.mp hx).1
    · exact hfne
  have hkQ : pyMean l * 3 * ((l.filter fun a => !(P a)).length) < l.sum := by
    linarith
  have hkQ2 : (3:ℚ) * ((l.filter fun a => !(P a)).length) < (l.length : ℚ) := by
    rw [pyMean] at hkQ
    rw [div_mul_eq_mul_div, div_mul_eq_mul_div, div_lt_iff₀ hn] at hkQ
    have := (mul_lt_mul_left hS).mp (by linarith [hkQ] :
      l.sum * (3 * ((l.filter fun a => !(P a)).length)) <
        l.sum * (l.length : ℚ))
    linarith
  have hkN : 3 * (l.filter fun a => !(P a)).length < l.length := by
    exact_mod_cast hkQ2
  exact ⟨hkN, by omega⟩

theorem condition_multipliers_nonneg (cond : String) :
    0 ≤ (condition_multipliers cond).1 ∧ 0 ≤ (condition_multipliers cond).2 := by
  unfold condition_multipliers
  split_ifs <;> norm_num

/-- Claim C1 counterexample: at sale_price 100 the `xiaohongshu` platform fee
is 5 (five percent), not the 10 percent (= 10) the claim asserts. -/
theorem C1_counterexample :
    (calculate_net_profit 100 "xiaohongshu" 0).platform_fee = 5 ∧
      (5:ℚ) ≠ 100 * (10/100) := by
  have hfee : total_fee 100 "xiaohongshu" = 5 := by
    simp [total_fee, get_platform_fees]
    norm_num
  constructor
  · show pyRound (total_fee 100 "xiaohongshu") 2 = 5
    rw [hfee]
    norm_num [pyRound, roundHalfEven]
  · norm_num

/-- Claim C1 (amended): a platform absent from the fee table is charged
`sale_price * 0.10`, while `xiaohongshu` — which is in the table — is charged
`sale_price * 0.05`. -/
theorem C1_default_and_xiaohongshu_fee (p cost : ℚ) (platform : String)
    (hp : 0 < p) (hplat : get_platform_fees platform = none) :
    total_fee p platform = p * (10/100) ∧
    (calculate_net_profit p platform cost).platform_fee =
      pyRound (p * (10/100)) 2 ∧
    total_fee p "xiaohongshu" = p * (5/100) ∧
    (calculate_net_profit p "xiaohongshu" cost).platform_fee =
      pyRound (p * (5/100)) 2 := by
  have hpm : platform ≠ "poshmark" := by
    intro h
    rw [h] at hplat
    simp [get_platform_fees] at hplat
  have hdp : platform ≠ "depop" := by
    intro h
    rw [h] at hplat
    simp [get_platform_fees] at hplat
  have h1 : total_fee p platform = p * (10/100) := by
    unfold total_fee
    rw [hplat]
    rw [if_neg hpm, if_neg hdp]
    norm_num [default_fees]
  have h2 : total_fee p "xiaohongshu" = p * (5/100) := by
    simp [total_fee, get_platform_fees]
  refine ⟨h1, ?_, h2, ?_⟩
  · show pyRound (total_fee p platform) 2 = pyRound (p * (10/100)) 2
    rw [h1]
  · show pyRound (total_fee p "xiaohongshu") 2 = pyRound (p * (5/100)) 2
    rw [h2]

/-- Claim C1 witness: the amended theorem applied at sale_price 100 and the
unlisted platform `etsy`. -/
theorem C1_witness :
    total_fee 100 "etsy" = 100 * (10/100) ∧
    (calculate_net_profit 100 "etsy" 0).platform_fee =
      pyRound (100 * (10/100)) 2 ∧
    total_fee 100 "xiaohongshu" = 100 * (5/100) ∧
    (calculate_net_profit 100 "xiaohongshu" 0).platform_fee =
      pyRound (100 * (5/100)) 2 :=
  C1_default_and_xiaohongshu_fee 100 0 "etsy" (by norm_num)
    (by simp [get_platform_fees])

/-- Claim C8: for poshmark with item_cost 0 the fee is the flat 2.95 exactly
when sale_price < 15 and 20 percent of sale_price otherwise; at the boundary,
14.99 gives platform_fee 2.95 and 15.00 gives platform_fee 3.00. -/
theorem C8_poshmark_boundary (p : ℚ) :
    total_fee p "poshmark" = (if p < 15 then 59/20 else p * (20/100)) ∧
    (calculate_net_profit (1499/100) "poshmark" 0).platform_fee = 59/20 ∧
    (calculate_net_profit 15 "poshmark" 0).platform_fee = 3 := by
  have hgen : ∀ q : ℚ, total_fee q "poshmark" =
      (if q < 15 then 59/20 else q * (20/100)) := by
    intro q
    simp [total_fee, get_platform_fees]
    norm_num
  refine ⟨hgen p, ?_, ?_⟩
  · show pyRound (total_fee (1499/100) "poshmark") 2 = 59/20
    rw [hgen]
    norm_num [pyRound, roundHalfEven]
  · show pyRound (total_fee 15 "poshmark") 2 = 3
    rw [hgen]
    norm_num [pyRound, roundHalfEven]

/-- Claim C9: `calculate_net_profit` is total; at sale_price 0 the margin is 0
(no division is performed), and for positive sale_price the margin is
`round(profit / sale_price * 100, 1)`. -/
theorem C9_margin_total (p cost : ℚ) (platform : String) :
    (p = 0 → (calculate_net_profit p platform cost).profit_margin = 0) ∧
    (0 < p → (calculate_net_profit p platform cost).profit_margin =
      pyRound ((p - total_fee p platform -
        (if cost ≠ 0 then cost else 0)) / p * 100) 1) := by
  constructor
  · intro hp
    subst hp
    unfold calculate_net_profit
    norm_num [pyRound_zero]
  · intro hp
    unfold calculate_net_profit
    simp only [ne_eq, hp.ne', not_false_iff, if_true]
    congr 1
    split_ifs <;> ring

/-- Claim C9 witness: the theorem applied at sale_price 0 (margin 0) and at
sale_price 10 on mercari. -/
theorem C9_margin_total_witness :
    (calculate_net_profit 0 "ebay" 5).profit_margin = 0 ∧
    (calculate_net_profit 10 "mercari" 0).profit_margin =
      pyRound ((10 - total_fee 10 "mercari" -
        (if (0:ℚ) ≠ 0 then (0:ℚ) else 0)) / 10 * 100) 1 :=
  ⟨(C9_margin_total 0 5 "ebay").1 rfl,
   (C9_margin_total 10 0 "mercari").2 (by norm_num)⟩

/-- Claim C4 counterexample: at retail_price -10 and condition `good`,
`estimate_from_retail` does not fail — it returns the record
`{low := -3, high := -5, avg := -4}`. -/
theorem C4_counterexample :
    estimate_from_retail (-10) "good" = ⟨-3, -5, -4⟩ := by
  have h : condition_multipliers "good" = (30/100, 50/100) := by
    simp [condition_multipliers]
  simp only [estimate_from_retail, h]
  norm_num [pyRound, roundHalfEven]

/-- Claim C4 (amended): `estimate_from_retail` performs no input validation:
for every retail_price ≤ 0 it still returns the `{low, high, avg}` record of
rounded multiplier products (whose components are then all non-positive),
rather than failing with an InvalidInput error. -/
theorem C4_no_validation (r : ℚ) (cond : String) (h : r ≤ 0) :
    estimate_from_retail r cond =
      ⟨pyRound (r * (condition_multipliers cond).1) 2,
       pyRound (r * (condition_multipliers cond).2) 2,
       pyRound (r * ((condition_multipliers cond).1 +
         (condition_multipliers cond).2) / 2) 2⟩ ∧
    (estimate_from_retail r cond).low ≤ 0 ∧
    (estimate_from_retail r cond).high ≤ 0 ∧
    (estimate_from_retail r cond).avg ≤ 0 := by
  obtain ⟨hm1, hm2⟩ := condition_multipliers_nonneg cond
  refine ⟨rfl, ?_, ?_, ?_⟩
  · exact pyRound_nonpos 2 (mul_nonpos_iff.mpr (Or.inr ⟨h, hm1⟩))
  · exact pyRound_nonpos 2 (mul_nonpos_iff.mpr (Or.inr ⟨h, hm2⟩))
  · apply pyRound_nonpos 2
    have : r * ((condition_multipliers cond).1 +
        (condition_multipliers cond).2) ≤ 0 :=
      mul_nonpos_iff.mpr (Or.inr ⟨h, by linarith⟩)
    linarith

/-- Claim C4 witness: the amended theorem applied at retail_price -10,
condition `good`. -/
theorem C4_no_validation_witness :
    estimate_from_retail (-10) "good" =
      ⟨pyRound ((-10) * (condition_multipliers "good").1) 2,
       pyRound ((-10) * (condition_multipliers "good").2) 2,
       pyRound ((-10) * ((condition_multipliers "good").1 +
         (condition_multipliers "good").2) / 2) 2⟩ ∧
    (estimate_from_retail (-10) "good").low ≤ 0 ∧
    (estimate_from_retail (-10) "good").high ≤ 0 ∧
    (estimate_from_retail (-10) "good").avg ≤ 0 :=
  C4_no_validation (-10) "good" (by norm_num)

theorem generate_data_source_eq (fetch : MarketFetch) (item brand cond : String)
    (retail : Option ℚ) (cost : ℚ) (live : Bool) :
    (generate_price_recommendation fetch item brand cond retail cost
      live).data_source =
    (choose_tiers (fetch_real_prices fetch live) retail cond).data_source :=
  rfl

theorem generate_estimates_eq (fetch : MarketFetch) (item brand cond : String)
    (retail : Option ℚ) (cost : ℚ) (live : Bool) :
    (generate_price_recommendation fetch item brand cond retail cost
      live).estimates =
    ⟨(if cost ≠ 0 then
        max (choose_tiers (fetch_real_prices fetch live) retail
          cond).quick_sale (cost * (11/10))
      else (choose_tiers (fetch_real_prices fetch live) retail
        cond).quick_sale),
     (if cost ≠ 0 then
        max (choose_tiers (fetch_real_prices fetch live) retail
          cond).fair_price (cost * (11/10))
      else (choose_tiers (fetch_real_prices fetch live) retail
        cond).fair_price),
     (choose_tiers (fetch_real_prices fetch live) retail cond).max_value⟩ :=
  rfl

/-- Claim C3 counterexample: with live data disabled and retail_price -100,
`generate_price_recommendation` takes the retail-estimator branch (data_source
`estimated from retail`, quick_sale -30), not the static-default branch the
claim asserts. -/
theorem C3_counterexample :
    (generate_price_recommendation .fails "hat" "" "good" (some (-100)) 0
      false).data_source = "estimated from retail" ∧
    (generate_price_recommendation .fails "hat" "" "good" (some (-100)) 0
      false).estimates.quick_sale = -30 ∧
    "estimated from retail" ≠ "default estimate" := by
  have hm : condition_multipliers "good" = (30/100, 50/100) := by
    simp [condition_multipliers]
  have hest : estimate_from_retail (-100) "good" =
      ⟨-30, -50, -40⟩ := by
    simp only [estimate_from_retail, hm]
    norm_num [pyRound, roundHalfEven]
  have hct : choose_tiers (fetch_real_prices .fails false) (some (-100))
      "good" = ⟨-30, -40, -50, "estimated from retail"⟩ := by
    show choose_tiers_fallback (some (-100)) "good" = _
    norm_num [choose_tiers_fallback, hest]
  refine ⟨?_, ?_, by decide⟩
  · rw [generate_data_source_eq, hct]
  · rw [generate_estimates_eq, hct]
    norm_num

/-- Claim C3 (amended): when the live-data branch is not taken, a retail_price
of zero (or none) is treated as no retail price — the static-default branch
with tiers 25/50/75 and tag `default estimate` is taken — but a negative
retail_price instead takes the retail-estimator branch. -/
theorem C3_zero_vs_negative_retail (fetch : MarketFetch)
    (item brand cond : String) (retail : Option ℚ) (cost : ℚ) (live : Bool)
    (hlive : ∀ s, fetch_real_prices fetch live = some s → s.count < 3) :
    (retail = none ∨ retail = some 0 →
      choose_tiers (fetch_real_prices fetch live) retail cond =
        ⟨25, 50, 75, "default estimate"⟩ ∧
      (generate_price_recommendation fetch item brand cond retail cost
        live).data_source = "default estimate") ∧
    (∀ r : ℚ, retail = some r → r < 0 →
      choose_tiers (fetch_real_prices fetch live) retail cond =
        ⟨(estimate_from_retail r cond).low, (estimate_from_retail r cond).avg,
         (estimate_from_retail r cond).high, "estimated from retail"⟩ ∧
      (generate_price_recommendation fetch item brand cond retail cost
        live).data_source = "estimated from retail") := by
  have hfb : choose_tiers (fetch_real_prices fetch live) retail cond =
      choose_tiers_fallback retail cond := by
    cases h : fetch_real_prices fetch live with
    | none => rfl
    | some s =>
      have hc := hlive s h
      show (if 3 ≤ s.count then _ else choose_tiers_fallback retail cond) = _
      rw [if_neg (by omega)]
  constructor
  · intro hr
    have hfb2 : choose_tiers_fallback retail cond =
        ⟨25, 50, 75, "default estimate"⟩ := by
      rcases hr with rfl | rfl <;> simp [choose_tiers_fallback]
    refine ⟨hfb.trans hfb2, ?_⟩
    rw [generate_data_source_eq, hfb, hfb2]
  · intro r hr hneg
    subst hr
    have hfb2 : choose_tiers_fallback (some r) cond =
        ⟨(estimate_from_retail r cond).low, (estimate_from_retail r cond).avg,
         (estimate_from_retail r cond).high, "estimated from retail"⟩ := by
      simp [choose_tiers_fallback, hneg.ne]
    refine ⟨hfb.trans hfb2, ?_⟩
    rw [generate_data_source_eq, hfb, hfb2]

/-- Claim C3 witness: the amended theorem applied with live data disabled and
retail_price zero. -/
theorem C3_zero_vs_negative_retail_witness :
    (some (0:ℚ) = none ∨ some (0:ℚ) = some 0 →
      choose_tiers (fetch_real_prices .fails false) (some 0) "good" =
        ⟨25, 50, 75, "default estimate"⟩ ∧
      (generate_price_recommendation .fails "hat" "" "good" (some 0) 0
        false).data_source = "default estimate") ∧
    (∀ r : ℚ, some (0:ℚ) = some r → r < 0 →
      choose_tiers (fetch_real_prices .fails false) (some 0) "good" =
        ⟨(estimate_from_retail r "good").low,
         (estimate_from_retail r "good").avg,
         (estimate_from_retail r "good").high, "estimated from retail"⟩ ∧
      (generate_price_recommendation .fails "hat" "" "good" (some 0) 0
        false).data_source = "estimated from retail") :=
  C3_zero_vs_negative_retail .fails "hat" "" "good" (some 0) 0 false
    (by intro s h; simp [fetch_real_prices] at h)

/-- Claim C5: the aggregator returns no summary on fewer than 3 observations,
and for every failing or data-starved market source the recommendation engine
still returns a recommendation via the retail-estimate or default branch. -/
theorem C5_insufficient_or_failure_degrades (fetch : MarketFetch)
    (item brand cond : String) (retail : Option ℚ) (cost : ℚ) (live : Bool)
    (h : fetch = .fails ∨ ∃ ls, fetch = .returns ls ∧ ls.length < 3) :
    (∀ ls : List ScrapedListing, ls.length < 3 →
       get_real_market_prices ls = none) ∧
    ((generate_price_recommendation fetch item brand cond retail cost
        live).data_source = "estimated from retail" ∨
     (generate_price_recommendation fetch item brand cond retail cost
        live).data_source = "default estimate") := by
  have hnone : ∀ ls : List ScrapedListing, ls.length < 3 →
      get_real_market_prices ls = none := by
    intro ls hls
    unfold get_real_market_prices
    rw [if_pos hls]
  have hrp : fetch_real_prices fetch live = none := by
    cases live with
    | false => rfl
    | true =>
      rcases h with rfl | ⟨ls, rfl, hls⟩
      · rfl
      · show get_real_market_prices ls = none
        exact hnone ls hls
  refine ⟨hnone, ?_⟩
  rw [generate_data_source_eq, hrp]
  show (choose_tiers_fallback retail cond).data_source = _ ∨
    (choose_tiers_fallback retail cond).data_source = _
  unfold choose_tiers_fallback
  split_ifs <;> simp

/-- Claim C5 witness: the theorem applied to a failing market source. -/
theorem C5_insufficient_or_failure_degrades_witness :
    (∀ ls : List ScrapedListing, ls.length < 3 →
       get_real_market_prices ls = none) ∧
    ((generate_price_recommendation .fails "hat" "" "good" none 0
        true).data_source = "estimated from retail" ∨
     (generate_price_recommendation .fails "hat" "" "good" none 0
        true).data_source = "default estimate") :=
  C5_insufficient_or_failure_degrades .fails "hat" "" "good" none 0 true
    (Or.inl rfl)

/-- Claim C7: with a positive item_cost the returned quick_sale and
fair_price are the branch tiers floored at `item_cost * 1.10`, max_value is
the branch tier unchanged; concretely, cost 50 with the static defaults
yields estimates 55/55/75. -/
theorem C7_cost_floor (fetch : MarketFetch) (item brand cond : String)
    (retail : Option ℚ) (live : Bool) (cost : ℚ) (hc : 0 < cost) :
    ((generate_price_recommendation fetch item brand cond retail cost
        live).estimates.quick_sale =
      max (choose_tiers (fetch_real_prices fetch live) retail
        cond).quick_sale (cost * (11/10)) ∧
     (generate_price_recommendation fetch item brand cond retail cost
        live).estimates.fair_price =
      max (choose_tiers (fetch_real_prices fetch live) retail
        cond).fair_price (cost * (11/10)) ∧
     (generate_price_recommendation fetch item brand cond retail cost
        live).estimates.max_value =
      (choose_tiers (fetch_real_prices fetch live) retail cond).max_value) ∧
    (generate_price_recommendation .fails "item" "" "good" none 50
      false).estimates = ⟨55, 55, 75⟩ := by
  have hne : cost ≠ 0 := ne_of_gt hc
  constructor
  · rw [generate_estimates_eq]
    simp [hne]
  · have hct : choose_tiers (fetch_real_prices .fails false) none "good" =
        ⟨25, 50, 75, "default estimate"⟩ := by
      show choose_tiers_fallback none "good" = _
      simp [choose_tiers_fallback]
    rw [generate_estimates_eq, hct]
    norm_num [max_def]

/-- Claim C7 witness: the theorem applied at item_cost 50 with live data
disabled and no retail price. -/
theorem C7_cost_floor_witness :
    ((generate_price_recommendation .fails "item" "" "good" none 50
        false).estimates.quick_sale =
      max (choose_tiers (fetch_real_prices .fails false) none
        "good").quick_sale (50 * (11/10)) ∧
     (generate_price_recommendation .fails "item" "" "good" none 50
        false).estimates.fair_price =
      max (choose_tiers (fetch_real_prices .fails false) none
        "good").fair_price (50 * (11/10)) ∧
     (generate_price_recommendation .fails "item" "" "good" none 50
        false).estimates.max_value =
      (choose_tiers (fetch_real_prices .fails false) none
        "good").max_value) ∧
    (generate_price_recommendation .fails "item" "" "good" none 50
      false).estimates = ⟨55, 55, 75⟩ :=
  C7_cost_floor .fails "item" "" "good" none false 50 (by norm_num)

theorem get_real_market_prices_eq {listings : List ScrapedListing}
    (h3 : 3 ≤ listings.length) :
    get_real_market_prices listings = some
      { count := (market_kept listings).length
        min := pyMin (market_kept listings)
        max := pyMax (market_kept listings)
        avg := pyRound (pyMean (market_kept listings)) 2
        median := pyRound (pyMedian (market_kept listings)) 2
        quick_sale := pyRound (pyMedian (market_kept listings) * (85/100)) 2
        fair_price := pyRound (pyMedian (market_kept listings)) 2
        max_value := pyRound (pyMedian (market_kept listings) * (12/10)) 2
        source := "live_scrape" } := by
  unfold get_real_market_prices
  rw [if_neg (by omega)]

theorem market_kept_mem {listings : List ScrapedListing} {p : ℚ}
    (hp : p ∈ market_kept listings) : p ∈ market_prices listings := by
  unfold market_kept at hp
  by_cases h : (market_filtered listings).isEmpty
  · rwa [if_pos h] at hp
  · rw [if_neg h] at hp
    unfold market_filtered at hp
    exact (List.mem_filter.mp hp).1

theorem market_kept_ne_nil {listings : List ScrapedListing}
    (h3 : 3 ≤ listings.length) : market_kept listings ≠ [] := by
  have hlen : (market_prices listings).length = listings.length :=
    List.length_map _ _
  unfold market_kept
  by_cases h : (market_filtered listings).isEmpty
  · rw [if_pos h]
    intro hnil
    rw [hnil] at hlen
    simp at hlen
    omega
  · rw [if_neg h]
    intro hnil
    rw [hnil] at h
    exact h rfl

/-- Observations whose prices are [1, 1, 1, 9]: the mean is 3 and the price 9
sits exactly on the 3x-mean threshold. -/
def boundary_observations : List ScrapedListing :=
  [⟨"sold item", 1, "eBay", "u1"⟩, ⟨"sold item", 1, "eBay", "u2"⟩,
   ⟨"sold item", 1, "eBay", "u3"⟩, ⟨"sold item", 9, "eBay", "u4"⟩]

/-- Claim C2 counterexample: on prices [1, 1, 1, 9] (mean 3, threshold 9) the
code drops the observation at exactly the threshold and reports count 3,
whereas the claimed keep-if-less-or-equal filter would retain all 4. -/
theorem C2_counterexample :
    (get_real_market_prices boundary_observations).map MarketSummary.count =
      some 3 ∧
    ((market_prices boundary_observations).filter fun p =>
      decide (p ≤ pyMean (market_prices boundary_observations) * 3)).length
      = 4 := by
  have hp : market_prices boundary_observations = [1, 1, 1, 9] := rfl
  have hm : pyMean ([1, 1, 1, 9] : List ℚ) = 3 := by
    norm_num [pyMean]
  have hflt : market_filtered boundary_observations = [1, 1, 1] := by
    unfold market_filtered
    simp only [hp, hm]
    norm_num [List.filter]
  have hkept : market_kept boundary_observations = [1, 1, 1] := by
    unfold market_kept
    rw [hflt]
    rfl
  constructor
  · rw [get_real_market_prices_eq (by norm_num [boundary_observations])]
    simp [hkept]
  · simp only [hp, hm]
    norm_num [List.filter]

/-- Claim C2 (amended): the aggregator keeps exactly the observations whose
price is strictly below 3x the mean of the unfiltered list (an observation at
exactly the threshold is dropped), in a single pass, restores the unfiltered
list when the filter empties it, and computes the summary from the kept
list. -/
theorem C2_outlier_filter (listings : List ScrapedListing)
    (h3 : 3 ≤ listings.length) :
    ∃ s, get_real_market_prices listings = some s ∧
      (∀ p : ℚ, p ∈ market_filtered listings ↔
        p ∈ market_prices listings ∧
          p < pyMean (market_prices listings) * 3) ∧
      market_kept listings = (if (market_filtered listings).isEmpty
        then market_prices listings else market_filtered listings) ∧
      s.count = (market_kept listings).length ∧
      s.min = pyMin (market_kept listings) ∧
      s.max = pyMax (market_kept listings) ∧
      s.median = pyRound (pyMedian (market_kept listings)) 2 := by
  refine ⟨_, get_real_market_prices_eq h3, ?_, rfl, rfl, rfl, rfl, rfl⟩
  intro p
  unfold market_filtered
  simp [List.mem_filter]

/-- Claim C2 witness: the amended theorem applied to the concrete
[1, 1, 1, 9] observations. -/
theorem C2_outlier_filter_witness :
    ∃ s, get_real_market_prices boundary_observations = some s ∧
      (∀ p : ℚ, p ∈ market_filtered boundary_observations ↔
        p ∈ market_prices boundary_observations ∧
          p < pyMean (market_prices boundary_observations) * 3) ∧
      market_kept boundary_observations =
        (if (market_filtered boundary_observations).isEmpty
          then market_prices boundary_observations
          else market_filtered boundary_observations) ∧
      s.count = (market_kept boundary_observations).length ∧
      s.min = pyMin (market_kept boundary_observations) ∧
      s.max = pyMax (market_kept boundary_observations) ∧
      s.median = pyRound (pyMedian (market_kept boundary_observations)) 2 :=
  C2_outlier_filter boundary_observations (by norm_num [boundary_observations])

/-- Claim C6: every summary built from at least 3 positive prices satisfies
min ≤ median ≤ max, its tiers are the rounded 0.85x / 1x / 1.2x multiples of
the median, and quick_sale ≤ fair_price ≤ max_value. -/
theorem C6_summary_invariants (listings : List ScrapedListing)
    (h3 : 3 ≤ listings.length) (hpos : ∀ l ∈ listings, 0 < l.price) :
    ∃ s m, get_real_market_prices listings = some s ∧
      s.min ≤ m ∧ m ≤ s.max ∧
      s.quick_sale = pyRound (m * (85/100)) 2 ∧
      s.fair_price = pyRound m 2 ∧
      s.max_value = pyRound (m * (12/10)) 2 ∧
      s.quick_sale ≤ s.fair_price ∧ s.fair_price ≤ s.max_value := by
  have hne := market_kept_ne_nil h3
  have hposk : ∀ p ∈ market_kept listings, 0 < p := by
    intro p hp
    have hmem := market_kept_mem hp
    unfold market_prices at hmem
    obtain ⟨l, hl, rfl⟩ := List.mem_map.mp hmem
    exact hpos l hl
  have hmin := pyMin_le_pyMedian hne
  have hmax := pyMedian_le_pyMax hne
  have hminpos : 0 < pyMin (market_kept listings) :=
    hposk _ (pyMin_mem hne)
  have hmed : 0 ≤ pyMedian (market_kept listings) :=
    le_trans hminpos.le hmin
  refine ⟨_, pyMedian (market_kept listings), get_real_market_prices_eq h3,
    hmin, hmax, rfl, rfl, rfl, ?_, ?_⟩
  · exact pyRound_mono 2 (by linarith)
  · exact pyRound_mono 2 (by linarith)

/-- Claim C6 witness: the theorem applied to the [1, 1, 1, 9] observations. -/
theorem C6_summary_invariants_witness :
    ∃ s m, get_real_market_prices boundary_observations = some s ∧
      s.min ≤ m ∧ m ≤ s.max ∧
      s.quick_sale = pyRound (m * (85/100)) 2 ∧
      s.fair_price = pyRound m 2 ∧
      s.max_value = pyRound (m * (12/10)) 2 ∧
      s.quick_sale ≤ s.fair_price ∧ s.fair_price ≤ s.max_value :=
  C6_summary_invariants boundary_observations
    (by norm_num [boundary_observations])
    (by intro l hl; fin_cases hl <;> norm_num)

/-- Claim C10: over n ≥ 3 strictly positive prices fewer than n/3 can reach
the 3x-mean threshold, so the filter keeps at least 3 observations, the
empty-filter fallback is unreachable, and the summary count is at least 3. -/
theorem C10_filter_retains_three (listings : List ScrapedListing)
    (h3 : 3 ≤ listings.length) (hpos : ∀ l ∈ listings, 0 < l.price) :
    3 * ((market_prices listings).length -
        (market_filtered listings).length) < (market_prices listings).length ∧
    3 ≤ (market_filtered listings).length ∧
    (market_filtered listings).isEmpty = false ∧
    market_kept listings = market_filtered listings ∧
    ∃ s, get_real_market_prices listings = some s ∧
      s.count = (market_filtered listings).length ∧ 3 ≤ s.count := by
  have hlen : (market_prices listings).length = listings.length :=
    List.length_map _ _
  have hppos : ∀ p ∈ market_prices listings, 0 < p := by
    intro p hp
    unfold market_prices at hp
    obtain ⟨l, hl, rfl⟩ := List.mem_map.mp hp
    exact hpos l hl
  have hcore := outlier_filter_retains (l := market_prices listings)
    (by omega) hppos
  have hsplit := length_filter_split (market_prices listings)
    (fun p => decide (p < pyMean (market_prices listings) * 3))
  have hfeq : market_filtered listings = (market_prices listings).filter
      (fun p => decide (p < pyMean (market_prices listings) * 3)) := rfl
  have hk : 3 ≤ (market_filtered listings).length := by
    rw [hfeq]
    exact hcore.2
  have hdrop : 3 * ((market_prices listings).length -
      (market_filtered listings).length) < (market_prices listings).length := by
    rw [hfeq]
    omega
  have hemp : (market_filtered listings).isEmpty = false := by
    cases he : (market_filtered listings).isEmpty
    · rfl
    · rw [List.isEmpty_iff] at he
      rw [he] at hk
      simp at hk
  have hkept : market_kept listings = market_filtered listings := by
    unfold market_kept
    rw [hemp]
    rfl
  refine ⟨hdrop, hk, hemp, hkept, _, get_real_market_prices_eq h3, ?_, ?_⟩
  · rw [hkept]
  · show 3 ≤ (market_kept listings).length
    rw [hkept]
    exact hk

/-- Claim C10 witness: the theorem applied to the [1, 1, 1, 9]
observations. -/
theorem C10_filter_retains_three_witness :
    3 * ((market_prices boundary_observations).length -
        (market_filtered boundary_observations).length) <
      (market_prices boundary_observations).length ∧
    3 ≤ (market_filtered boundary_observations).length ∧
    (market_filtered boundary_observations).isEmpty = false ∧
    market_kept boundary_observations = market_filtered boundary_observations ∧
    ∃ s, get_real_market_prices boundary_observations = some s ∧
      s.count = (market_filtered boundary_observations).length ∧
      3 ≤ s.count :=
  C10_filter_retains_three boundary_observations
    (by norm_num [boundary_observations])
    (by intro l hl; fin_cases hl <;> norm_num)
